import Mathlib

/-!
Verification of the lawyeredAI repository's case-search and request-handling
logic against its natural-language specification.

Shallow embedding conventions:
* Python strings are modelled as `List Char` (named `Str`); `str.lower()` is
  modelled per-character for ASCII letters, `str.strip()` removes the ASCII
  whitespace characters Python strips, and the substring operator `in` is a
  contiguous-infix test.
* JSON objects returned by the CourtListener API are modelled as structures
  whose fields are `Option`-valued: `none` models an absent key, so
  `dict.get(k, default)` becomes `Option.getD`.
* Fallible Python code is modelled with `Except`: a `.error` value models a
  raised exception, and `try/except` blocks become matches on `Except`.
* Python's stable `sorted(xs, key=k, reverse=True)` is modelled by Mathlib's
  `List.insertionSort` with the relation "key of the left element is
  lexicographically at least the key of the right element": insertion sort
  with that relation places earlier elements first on ties, which is exactly
  the stable descending order Python produces.
* Python list slicing `xs[:n]` with a possibly negative `n` is modelled by
  `pySlice`.
-/

namespace LawyeredAI

/-- Python strings, modelled as lists of characters. -/
abbrev Str := List Char

/-- ASCII lowercasing of one character, modelling `str.lower()` pointwise. -/
def lowerChar (c : Char) : Char :=
  if 'A' ≤ c ∧ c ≤ 'Z' then Char.ofNat (c.toNat + 32) else c

/-- Model of `s.lower()` on the ASCII fragment. -/
def toLower (s : Str) : Str := s.map lowerChar

/-- Boolean test that `p` is a leading segment of `s`. -/
def isLeading : Str → Str → Bool
  | [], _ => true
  | _ :: _, [] => false
  | a :: as, b :: bs => a == b && isLeading as bs

/-- Python's substring operator: `containsSub hay needle` models
`needle in hay` (contiguous occurrence; the empty needle always occurs). -/
def containsSub (hay needle : Str) : Bool :=
  match hay with
  | [] => isLeading needle []
  | _ :: t => isLeading needle hay || containsSub t needle

/-- The ASCII whitespace characters removed by Python's `str.strip()`. -/
def isPySpace (c : Char) : Bool :=
  c == ' ' || c == '\t' || c == '\n' || c == '\x0d' || c == '\x0b' || c == '\x0c'

/-- Python's `str.strip()`: drop whitespace from both ends. -/
def pyStrip (s : Str) : Str :=
  ((s.dropWhile isPySpace).reverse.dropWhile isPySpace).reverse

/-- Python list slicing `xs[:stop]` for an arbitrary integer `stop`:
nonnegative `stop` takes a prefix; negative `stop` drops `|stop|` elements
from the end (never below the empty list). -/
def pySlice {α : Type} (l : List α) (stop : Int) : List α :=
  if 0 ≤ stop then l.take stop.toNat else l.take (l.length - (-stop).toNat)

namespace CourtListenerMCP

/-!
Embedding of `src/mcp/courtlistener-mcp/server.py` (class
`CourtListenerMCPServer`): keyword validation, text truncation, query
construction, result scoring/ranking and the `search_cases_by_problem` tool.
-/

/-- The fixed truncation marker appended by `truncate_text`
(server.py line 95). -/
def TRUNCATION_MARKER : Str :=
  ("... [TRUNCATED - use get_case_details with include_full_text for complete text]").toList

/-- Model of `truncate_text(text, max_length)` from server.py lines 91-95:
`if not text or len(text) <= max_length: return text or ""`, otherwise
`text[:max_length]` plus the fixed marker.  `none` models Python `None`. -/
def truncate_text (text : Option Str) (max_length : Nat) : Str :=
  match text with
  | none => []
  | some t =>
    if t.length = 0 then []
    else if t.length ≤ max_length then t
    else t.take max_length ++ TRUNCATION_MARKER

/-- A Python value appearing as an element of the `search_keywords`
argument: either a string or a value of some other type. -/
inductive PyElem : Type
  | str (s : Str)
  | nonStr
deriving DecidableEq

/-- The raw `search_keywords` argument: either a Python list of values or a
value that is not a list. -/
inductive KwInput : Type
  | list (elems : List PyElem)
  | notList
deriving DecidableEq

/-- The element filter of the list comprehension in server.py lines 81-84:
`isinstance(keyword, str) and keyword.strip() and len(keyword) <= 100`,
keeping `keyword.strip()`. -/
def keepKeyword : PyElem → Option Str
  | PyElem.str s => if pyStrip s ≠ [] ∧ s.length ≤ 100 then some (pyStrip s) else none
  | PyElem.nonStr => none

/-- Model of `validate_search_keywords` from server.py lines 73-89.  A `.error`
models a raised `ValueError` (carrying the message). -/
def validate_search_keywords : KwInput → Except Str (List Str)
  | KwInput.notList => Except.error ("search_keywords must be a non-empty array of legal terms").toList
  | KwInput.list elems =>
    if elems.length = 0 then
      Except.error ("search_keywords must be a non-empty array of legal terms").toList
    else if elems.length > 10 then
      Except.error ("Maximum 10 search keywords allowed for optimal performance").toList
    else
      let valid_keywords := elems.filterMap keepKeyword
      if valid_keywords = [] then
        Except.error ("No valid search keywords provided. Keywords must be non-empty strings.").toList
      else
        Except.ok valid_keywords

/-- One item of the API response's `results` array (server.py line 148);
every field is optional because the corresponding JSON key may be absent. -/
structure RawItem : Type where
  id : Option Str
  case_name : Option Str
  court : Option Str
  date_filed : Option Str
  citation_count : Option Int
  snippet : Option Str
deriving DecidableEq

/-- The text a result is matched against (server.py line 149):
`f"{item.get('case_name', '')} {item.get('snippet', '')}".lower()`. -/
def itemText (it : RawItem) : Str :=
  toLower (it.case_name.getD [] ++ ' ' :: it.snippet.getD [])

/-- The keyword relevance score (server.py line 150):
`sum(1 for keyword in valid_keywords if keyword.lower() in text)`. -/
def keywordScore (valid_keywords : List Str) (it : RawItem) : Nat :=
  (valid_keywords.map (fun keyword => if containsSub (itemText it) (toLower keyword) then 1 else 0)).sum

/-- A result item together with the `relevance_score` attached to it
(server.py line 151). -/
structure ScoredItem : Type where
  item : RawItem
  relevance_score : Nat
deriving DecidableEq

/-- The scoring loop of server.py lines 147-151. -/
def scoreResults (valid_keywords : List Str) (results : List RawItem) : List ScoredItem :=
  results.map (fun it => ⟨it, keywordScore valid_keywords it⟩)

/-- The sort key of server.py line 156:
`(x.get("relevance_score", 0), x.get("citation_count", 0))`.  Every scored
item carries a `relevance_score` by construction, so only `citation_count`
needs the default. -/
def sortKey (s : ScoredItem) : Nat × Int :=
  (s.relevance_score, s.item.citation_count.getD 0)

/-- Python's `>` on the `(relevance_score, citation_count)` key tuples:
strict lexicographic comparison. -/
def pairGT (p q : Nat × Int) : Bool :=
  q.1 < p.1 || (p.1 == q.1 && q.2 < p.2)

/-- The order used to model `sorted(..., key=sortKey, reverse=True)`:
`keyGE a b` holds when the key of `a` is not strictly below the key of `b`,
so that insertion sort with `keyGE` reproduces Python's stable descending
sort (ties keep their original order). -/
def keyGE (a b : ScoredItem) : Prop := pairGT (sortKey b) (sortKey a) = false

instance : DecidableRel keyGE := fun a b =>
  inferInstanceAs (Decidable (pairGT (sortKey b) (sortKey a) = false))

instance : IsTotal ScoredItem keyGE :=
  ⟨fun a b => by
    simp only [keyGE, pairGT, Bool.or_eq_false_iff, Bool.and_eq_false_iff,
      decide_eq_false_iff_not, Nat.not_lt, Int.not_lt, beq_eq_false_iff_ne, ne_eq]
    omega⟩

instance : IsTrans ScoredItem keyGE :=
  ⟨fun a b c hab hbc => by
    simp only [keyGE, pairGT, Bool.or_eq_false_iff, Bool.and_eq_false_iff,
      decide_eq_false_iff_not, Nat.not_lt, Int.not_lt, beq_eq_false_iff_ne, ne_eq] at hab hbc ⊢
    omega⟩

/-- Model of `sorted(scored_results, key=..., reverse=True)[:limit]` from
server.py lines 154-158, where `limit` is the (possibly negative) integer
`min(args.get("limit", 10), 20)` computed at line 104. -/
def sortedSlice (scored_results : List ScoredItem) (limit : Int) : List ScoredItem :=
  pySlice (List.insertionSort keyGE scored_results) limit

/-- Model of Python's string-join operation `sep.join(parts)`. -/
def joinSep (sep : Str) : List Str → Str
  | [] => []
  | [x] => x
  | x :: y :: t => x ++ sep ++ joinSep sep (y :: t)

/-- Double-quoting one search term (server.py line 111). -/
def quoteTerm (term : Str) : Str := '"' :: (term ++ ['"'])

/-- The primary search query of server.py lines 110-111: the `" OR "`-join
of the double-quoted first five validated keywords. -/
def searchQuery (valid_keywords : List Str) : Str :=
  joinSep (" OR ").toList ((valid_keywords.take 5).map quoteTerm)

/-- Model of `has_consumer` from server.py line 114:
`any("consumer" in k.lower() for k in valid_keywords)`. -/
def hasConsumer (valid_keywords : List Str) : Bool :=
  valid_keywords.any (fun k => containsSub (toLower k) ("consumer").toList)

/-- The final query of server.py lines 113-118: wrapped in the consumer
context unless some keyword already mentions "consumer". -/
def enhancedQuery (valid_keywords : List Str) : Str :=
  if hasConsumer valid_keywords then searchQuery valid_keywords
  else '(' :: (searchQuery valid_keywords ++ (") AND (consumer OR \"consumer protection\")").toList)

/-- Model of the `page_size` of the API request (server.py line 126):
`min(limit * 2, 40)` for `limit = min(args.get("limit", 10), 20)`. -/
def requestPageSize (argsLimit : Int) : Int :=
  min (min argsLimit 20 * 2) 40

/-- The primary NY court identifiers of `get_ny_courts` (server.py
lines 62-66). -/
def ny_courts_primary : List Str :=
  [("ny-civ-ct").toList, ("ny-city-ct-buffalo").toList, ("ny-city-ct-rochester").toList,
   ("ny-city-ct-syracuse").toList, ("ny-city-ct-albany").toList, ("ny-city-ct-yonkers").toList,
   ("ny-dist-ct-nassau").toList, ("ny-dist-ct-suffolk").toList]

/-- The `filed_after` / `filed_before` day numbers of server.py
lines 131-139, with dates modelled as day counts and the `strftime`
rendering left out (it is injective on day counts). -/
def filedWindow (date_range : Str) (todayDays : Nat) : Option Nat × Option Nat :=
  if date_range = ("recent-2years").toList then (some (todayDays - 730), none)
  else if date_range = ("established-precedent").toList then
    (some (todayDays - 3650), some (todayDays - 1825))
  else (none, none)

/-- The request parameters dict of server.py lines 121-139. -/
structure RequestParams : Type where
  q : Str
  search_type : Str
  court : Str
  cited_gt : Int
  page_size : Int
  filed_after : Option Nat
  filed_before : Option Nat
deriving DecidableEq

/-- Construction of the API request parameters (server.py lines 121-139)
from the validated keywords, the raw `limit` argument, the `date_range`
argument and the current date. -/
def buildParams (valid_keywords : List Str) (argsLimit : Int) (date_range : Str)
    (todayDays : Nat) : RequestParams :=
  { q := enhancedQuery valid_keywords
    search_type := ("o").toList
    court := joinSep (",").toList ny_courts_primary
    cited_gt := 0
    page_size := requestPageSize argsLimit
    filed_after := (filedWindow date_range todayDays).1
    filed_before := (filedWindow date_range todayDays).2 }

/-- One formatted case of the tool response (server.py lines 170-179). -/
structure FormattedCase : Type where
  case_id : Option Str
  case_name : Option Str
  court : Option Str
  date_filed : Option Str
  citation_count : Int
  relevance_summary : Str
  keyword_matches : Nat
  precedential_value : Str
deriving DecidableEq

/-- Formatting of one sorted result (server.py lines 162-179). -/
def formatItem (s : ScoredItem) : FormattedCase :=
  let citation_count := s.item.citation_count.getD 0
  { case_id := s.item.id
    case_name := s.item.case_name
    court := s.item.court
    date_filed := s.item.date_filed
    citation_count := citation_count
    relevance_summary := truncate_text s.item.snippet 200
    keyword_matches := s.relevance_score
    precedential_value :=
      if citation_count > 10 then ("Strong").toList
      else if citation_count > 2 then ("Moderate").toList
      else ("Limited").toList }

/-- The data of the successful tool response (server.py lines 181-199),
restricted to the parts the claims are about. -/
structure ToolOutput : Type where
  keywords_used : List Str
  query_constructed : Str
  total_found : Int
  cases : List FormattedCase
  returned_count : Nat
  usage_note_limited : Bool
deriving DecidableEq

/-- The pure content of `search_cases_by_problem` (server.py lines 97-203):
the raw `limit` argument, the raw keyword argument, and the API response
(`count` and `results`) are inputs; a `.error` models the `except` branch
taken when `validate_search_keywords` raises. -/
def search_cases_by_problem (argsKeywords : KwInput) (argsLimit : Int)
    (apiCount : Int) (apiResults : List RawItem) : Except Str ToolOutput :=
  match validate_search_keywords argsKeywords with
  | Except.error e => Except.error e
  | Except.ok valid_keywords =>
    let limit : Int := min argsLimit 20
    let scored_results := scoreResults valid_keywords apiResults
    let sorted_results := sortedSlice scored_results limit
    let results := sorted_results.map formatItem
    Except.ok
      { keywords_used := valid_keywords
        query_constructed := enhancedQuery valid_keywords
        total_found := apiCount
        cases := results
        returned_count := results.length
        usage_note_limited := (results.length : Int) == limit }

/-- The number of cases in the tool response: zero on the error path
(the error payload carries no case list). -/
def casesLenOf (r : Except Str ToolOutput) : Nat :=
  match r with
  | Except.ok out => out.cases.length
  | Except.error _ => 0

/-- A result item with every JSON key absent, used as a concrete input. -/
def emptyItem : RawItem :=
  { id := none, case_name := none, court := none, date_filed := none,
    citation_count := none, snippet := none }

/-- Claim-side definition (following claim C1's words, to be compared with
`scoreResults`): the number of keywords `k` in `K` such that `lowercase(k)`
occurs as a substring of `lowercase(case_name ++ " " ++ snippet)`, a missing
`case_name` or `snippet` treated as the empty string. -/
def relevanceClaim (K : List Str) (case_name snippet : Option Str) : Nat :=
  K.countP (fun k => containsSub (toLower (case_name.getD [] ++ ' ' :: snippet.getD [])) (toLower k))

/-- Claim-side definition (following claim C3's words, to be compared with
`enhancedQuery`): the `" OR "`-join of the double-quoted first five
keywords, wrapped in the consumer context exactly when no keyword contains
the substring `"consumer"` case-insensitively. -/
def queryClaim (K : List Str) : Str :=
  let joined := (List.intersperse (" OR ").toList ((K.take 5).map (fun t => '"' :: (t ++ ['"'])))).flatten
  if K.any (fun k => containsSub (toLower k) (toLower ("consumer").toList)) then joined
  else '(' :: (joined ++ (") AND (consumer OR \"consumer protection\")").toList)

/-- Claim-side criterion (following claim C9's words) for a usable keyword
element: a string that is non-empty after stripping and whose unstripped
length is at most 100. -/
def goodKeywordB : PyElem → Bool
  | PyElem.str s => !(pyStrip s).isEmpty && decide (s.length ≤ 100)
  | PyElem.nonStr => false

/-- The stripped value of a keyword element (the claim's "stripped
surviving keywords"). -/
def strippedOf : PyElem → Str
  | PyElem.str s => pyStrip s
  | PyElem.nonStr => []

end CourtListenerMCP

/-- Boolean success test for an `Except` value. -/
def isOkE {ε α : Type} : Except ε α → Bool
  | Except.ok _ => true
  | Except.error _ => false

namespace Backend

/-!
Embedding of the FastAPI backend: `src/backend/services/court_listener.py`,
`src/backend/api/routes/chat.py` and `src/backend/mcp/server.py`.
JSON scalar values that the code passes through without computing on them
(ids, scores, dates) are modelled by their string rendering.
-/

/-- The `LegalCase` pydantic model of `src/backend/models/case.py`. -/
structure LegalCase : Type where
  id : Str
  case_name : Str
  court : Str
  date_filed : Option Str
  snippet : Str
  url : Str
  relevance_score : Option Str
deriving DecidableEq

/-- The fields of the AI service result consumed by the chat route
(`ai_result["response"]`, `ai_result["can_generate_demand_notice"]`). -/
structure AIResult : Type where
  response : Str
  can_generate_demand_notice : Bool

/-- A chat message (role and content; the timestamp is not computed on). -/
structure ChatMessage : Type where
  role : Str
  content : Str

/-- The `ChatRequest` model; its fields are those read by the handler
(`request.message`, `request.user_id`, `request.session_id`). -/
structure ChatRequest : Type where
  message : Str
  user_id : Str
  session_id : Option Str

/-- The `ChatResponse` model returned by `send_message`
(chat.py lines 78-83). -/
structure ChatResponse : Type where
  response : Str
  session_id : Str
  relevant_cases : Option (List LegalCase)
  can_generate_demand_notice : Bool

/-- A FastAPI `HTTPException` as raised by the chat routes. -/
structure HTTPExceptionModel : Type where
  status_code : Nat
  detail : Str

/-- Outcomes of the awaited service calls inside the `send_message`
handler body; a `.error` models that call raising an exception. -/
structure SendMessageEnv : Type where
  create_session : Except Str Str
  search_cases_outcome : Except Str (List LegalCase)
  get_history : Except Str (List ChatMessage)
  generate_response : Except Str AIResult
  add_message : ChatMessage → Except Str Unit

/-- The `try` block of the `send_message` handler (chat.py lines 42-83). -/
def send_message_body (req : ChatRequest) (env : SendMessageEnv) : Except Str ChatResponse := do
  let session_id ←
    if (req.session_id.getD []).isEmpty then env.create_session
    else Except.ok (req.session_id.getD [])
  let _relevant_cases ← env.search_cases_outcome
  let _chat_history ← env.get_history
  let ai_result ← env.generate_response
  let _ ← env.add_message { role := ("user").toList, content := req.message }
  let _ ← env.add_message { role := ("assistant").toList, content := ai_result.response }
  Except.ok
    { response := ai_result.response
      session_id := session_id
      relevant_cases := none
      can_generate_demand_notice := ai_result.can_generate_demand_notice }

/-- Model of the `POST /chat/message` handler (chat.py lines 33-86): any
exception from the body becomes an `HTTPException` with status 500. -/
def send_message (req : ChatRequest) (env : SendMessageEnv) :
    Except HTTPExceptionModel ChatResponse :=
  match send_message_body req env with
  | Except.ok r => Except.ok r
  | Except.error e =>
    Except.error { status_code := 500, detail := ("Error processing message: ").toList ++ e }

/-- Model of the `GET /chat/history` handler (chat.py lines 88-99). -/
def get_chat_history (historyOutcome : Except Str (List ChatMessage)) :
    Except HTTPExceptionModel (List ChatMessage) :=
  match historyOutcome with
  | Except.ok h => Except.ok h
  | Except.error e =>
    Except.error { status_code := 500, detail := ("Error fetching history: ").toList ++ e }

end Backend

namespace MCPServerBackend

/-!
Embedding of `src/backend/mcp/server.py` (class `MCPServer`).
-/

/-- The dict each MCP tool returns, restricted to the keys the claims are
about: every tool result carries a `success` key and, on failure, an
`error` message. -/
structure MCPResult : Type where
  success : Bool
  error : Option Str
deriving DecidableEq

/-- The `search_cases` tool (backend mcp/server.py lines 19-31): wraps the
service call outcome. -/
def mcp_search_cases (svc : Except Str (List Backend.LegalCase)) : MCPResult :=
  match svc with
  | Except.ok _ => { success := true, error := none }
  | Except.error e => { success := false, error := some e }

/-- The `get_case_details` tool (lines 33-45). -/
def mcp_get_case_details (svc : Except Str (Option Str)) : MCPResult :=
  match svc with
  | Except.ok _ => { success := true, error := none }
  | Except.error e => { success := false, error := some e }

/-- The `generate_legal_advice` tool (lines 47-68): its body cannot raise
and always reports success. -/
def mcp_generate_legal_advice : MCPResult :=
  { success := true, error := none }

/-- The keys of the `self.tools` registry (lines 13-17). -/
def registered_tool_names : List Str :=
  [("search_cases").toList, ("get_case_details").toList, ("generate_legal_advice").toList]

/-- The value of `request.get("tool")`: a string, the `None` obtained for
a missing key, some other hashable value (carrying its f-string
rendering), or an unhashable value such as a list — for which the dict
membership test `tool_name not in self.tools` raises `TypeError`. -/
inductive ToolName : Type
  | str (s : Str)
  | noneVal
  | otherHashable (rendering : Str)
  | unhashable
deriving DecidableEq

/-- Model of `MCPServer.handle_request` (lines 70-88).  `toolName` is
`request.get("tool")`; `invoke` is the outcome of
`await self.tools[tool_name](**params)` for a registered tool — an inner
`.error` models that call raising (for example on mismatched `params`)
and is caught by the `try` block.  The outer `Except` is the function's
own control flow: its `.error` models an exception propagating out of
`handle_request`, which happens when the membership test at line 75
raises `TypeError` on an unhashable tool value (line 75 sits outside the
`try` block that starts at line 81). -/
def handle_request (toolName : ToolName) (invoke : Except Str MCPResult) :
    Except Str MCPResult :=
  match toolName with
  | ToolName.unhashable => Except.error ("TypeError: unhashable type").toList
  | ToolName.str t =>
    if t ∈ registered_tool_names then
      match invoke with
      | Except.ok r => Except.ok r
      | Except.error e => Except.ok { success := false, error := some e }
    else Except.ok { success := false, error := some (("Unknown tool: ").toList ++ t) }
  | ToolName.noneVal => Except.ok { success := false, error := some ("Unknown tool: None").toList }
  | ToolName.otherHashable rendering =>
    Except.ok { success := false, error := some (("Unknown tool: ").toList ++ rendering) }

end MCPServerBackend

namespace CourtListenerMCP

/-- The generator-sum form of the score equals a predicate count. -/
theorem keywordScore_eq_countP (K : List Str) (it : RawItem) :
    keywordScore K it = K.countP (fun k => containsSub (itemText it) (toLower k)) := by
  unfold keywordScore
  induction K with
  | nil => rfl
  | cons a t ih =>
    simp only [List.map_cons, List.sum_cons, List.countP_cons, ih]
    by_cases h : containsSub (itemText it) (toLower a) = true
    · simp [h, Nat.add_comm]
    · simp [h]

/-- Python's `sep.join` agrees with interspersing and flattening. -/
theorem joinSep_eq (sep : Str) : ∀ l : List Str, joinSep sep l = (List.intersperse sep l).flatten
  | [] => rfl
  | [x] => by simp [joinSep, List.intersperse]
  | x :: y :: t => by
    show x ++ sep ++ joinSep sep (y :: t) = _
    rw [joinSep_eq sep (y :: t)]
    simp [List.intersperse, List.append_assoc]

/-- Claim C1: in `search_cases_by_problem`, the `relevance_score` attached
to every API result item equals the number of keywords `k` of the validated
list whose lowercase form occurs as a substring of
`lowercase(case_name ++ " " ++ snippet)`, a missing `case_name` or
`snippet` treated as the empty string. -/
theorem claim_C1_relevance_score (K : List Str) (results : List RawItem) :
    scoreResults K results =
      results.map (fun r => { item := r, relevance_score := relevanceClaim K r.case_name r.snippet }) := by
  unfold scoreResults
  refine List.map_congr_left (fun it _ => ?_)
  have h : keywordScore K it = relevanceClaim K it.case_name it.snippet := by
    rw [keywordScore_eq_countP]; rfl
  rw [h]

/-- Claim C3: for every validated keyword list, the constructed search
query is the `" OR "`-join of the double-quoted first five keywords,
wrapped as `(q) AND (consumer OR "consumer protection")` exactly when no
keyword contains the substring `"consumer"` case-insensitively. -/
theorem claim_C3_query_construction (K : List Str) : enhancedQuery K = queryClaim K := by
  have hc : toLower (("consumer").toList) = ("consumer").toList := by decide
  unfold enhancedQuery queryClaim searchQuery hasConsumer
  simp only [joinSep_eq, quoteTerm, hc]
  rfl

/-- Claim C5: `truncate_text` returns the empty string on a missing or
empty input, the text unchanged when its length is at most `max_length`,
and otherwise exactly the first `max_length` characters followed by the
fixed truncation marker. -/
theorem claim_C5_truncate_text (t : Str) (m : Nat) :
    truncate_text none m = [] ∧ truncate_text (some []) m = [] ∧
      (t.length ≤ m → truncate_text (some t) m = t) ∧
      (m < t.length → truncate_text (some t) m = t.take m ++ TRUNCATION_MARKER) := by
  refine ⟨rfl, by simp [truncate_text], ?_, ?_⟩
  · intro h
    unfold truncate_text
    by_cases h0 : t.length = 0
    · simp only [h0, if_pos rfl]
      exact (List.length_eq_zero.mp h0).symm
    · simp [h0, h]
  · intro h
    have h0 : t.length ≠ 0 := by omega
    have h1 : ¬ t.length ≤ m := by omega
    simp [truncate_text, h0, h1]

/-- Witness for claim C5's theorem at a concrete over-long input. -/
theorem claim_C5_truncate_text_witness :
    truncate_text (some ("abc").toList) 2 = (("abc").toList).take 2 ++ TRUNCATION_MARKER :=
  (claim_C5_truncate_text ("abc").toList 2).2.2.2 (by decide)

/-- Counterexample to claim C2 as stated: with requested limit `-10`
(`limit = min(-10, 20) = -10`) and 31 scored results, the code returns the
slice `sorted_results[:-10]` of 21 items, while "the first
`min(limit, 31)` scored results" would be none at all (the count is
negative); so the returned list is not the first `min(limit, n)` results. -/
theorem claim_C2_counterexample :
    (sortedSlice (scoreResults [("warranty").toList] (List.replicate 31 emptyItem))
        (min (-10 : Int) 20)).length = 21
      ∧ (min (min (-10 : Int) 20) ((List.replicate 31 emptyItem : List RawItem).length : Int)).toNat
          = 0 := by
  constructor
  · decide
  · decide

/-- Claim C2, amended by the counterexample: assuming the requested limit
is nonnegative, `search_cases_by_problem` returns exactly the first
`min(limit, n)` scored results of the stable descending sort by
`(relevance_score, citation_count)` (a missing `citation_count` counting
as 0, and every scored result carrying a `relevance_score`), where
`limit = min(requested, 20)`; in particular the output is sorted in
descending lexicographic key order. -/
theorem claim_C2_sorted_slice (K : List Str) (results : List RawItem) (argsLimit : Int)
    (h : 0 ≤ argsLimit) :
    sortedSlice (scoreResults K results) (min argsLimit 20) =
        (List.insertionSort keyGE (scoreResults K results)).take (min argsLimit 20).toNat
      ∧ (sortedSlice (scoreResults K results) (min argsLimit 20)).length =
          min (min argsLimit 20).toNat (scoreResults K results).length
      ∧ List.Sorted keyGE (sortedSlice (scoreResults K results) (min argsLimit 20)) := by
  have h2 : (0 : Int) ≤ min argsLimit 20 := le_min h (by norm_num)
  have he : sortedSlice (scoreResults K results) (min argsLimit 20) =
      (List.insertionSort keyGE (scoreResults K results)).take (min argsLimit 20).toNat := by
    unfold sortedSlice pySlice
    rw [if_pos h2]
  refine ⟨he, ?_, ?_⟩
  · rw [he, List.length_take, List.length_insertionSort]
  · rw [he]
    exact List.Pairwise.sublist (List.take_sublist _ _) (List.sorted_insertionSort keyGE _)

/-- Witness for claim C2's amended theorem at a concrete input. -/
theorem claim_C2_sorted_slice_witness :
    List.Sorted keyGE
      (sortedSlice (scoreResults [("warranty").toList] [emptyItem, emptyItem]) (min 5 20)) :=
  (claim_C2_sorted_slice [("warranty").toList] [emptyItem, emptyItem] 5 (by decide)).2.2

/-- Counterexample to claim C4 as stated: with requested limit `-10` and
31 API results the tool's response contains 21 cases, more than 20. -/
theorem claim_C4_counterexample :
    casesLenOf (search_cases_by_problem (KwInput.list [PyElem.str ("warranty").toList]) (-10) 0
      (List.replicate 31 emptyItem)) = 21 := by
  decide

/-- Claim C4, amended by the counterexample: the requested `page_size`
always equals `min(2 * limit, 40)` for `limit = min(requested, 20)`, hence
never exceeds 40; and whenever the requested limit is nonnegative the list
of cases in the tool's response contains at most 20 entries. -/
theorem claim_C4_page_size_and_cases (argsKeywords : KwInput) (argsLimit apiCount : Int)
    (apiResults : List RawItem) :
    requestPageSize argsLimit = min (2 * min argsLimit 20) 40
      ∧ requestPageSize argsLimit ≤ 40
      ∧ (0 ≤ argsLimit →
          casesLenOf (search_cases_by_problem argsKeywords argsLimit apiCount apiResults) ≤ 20) := by
  refine ⟨by unfold requestPageSize; rw [Int.mul_comm], min_le_right _ _, ?_⟩
  intro h
  rcases hv : validate_search_keywords argsKeywords with e | K
  · simp [search_cases_by_problem, hv, casesLenOf]
  · have h2 : (0 : Int) ≤ min argsLimit 20 := le_min h (by norm_num)
    have h3 : (min argsLimit 20).toNat ≤ 20 := by omega
    simp only [search_cases_by_problem, hv, casesLenOf, sortedSlice, pySlice, if_pos h2,
      List.length_map, List.length_take, List.length_insertionSort]
    omega

/-- Witness for claim C4's amended theorem at a concrete input. -/
theorem claim_C4_page_size_and_cases_witness :
    casesLenOf (search_cases_by_problem (KwInput.list [PyElem.str ("warranty").toList]) 5 0
      (List.replicate 31 emptyItem)) ≤ 20 :=
  (claim_C4_page_size_and_cases (KwInput.list [PyElem.str ("warranty").toList]) 5 0
    (List.replicate 31 emptyItem)).2.2 (by decide)

/-- Claim C6: the scoring and query-construction routine is deterministic:
equal arguments, equal API result lists and an equal current date produce
equal request parameters (hence an equal constructed query) and an equal
tool response (hence equal scores, orderings and formatted outputs). -/
theorem claim_C6_deterministic (K1 K2 : List Str) (a1 a2 : KwInput) (l1 l2 c1 c2 : Int)
    (r1 r2 : List RawItem) (d1 d2 : Str) (t1 t2 : Nat)
    (hK : K1 = K2) (ha : a1 = a2) (hl : l1 = l2) (hc : c1 = c2) (hr : r1 = r2)
    (hd : d1 = d2) (ht : t1 = t2) :
    buildParams K1 l1 d1 t1 = buildParams K2 l2 d2 t2
      ∧ search_cases_by_problem a1 l1 c1 r1 = search_cases_by_problem a2 l2 c2 r2 := by
  subst hK ha hl hc hr hd ht
  exact ⟨rfl, rfl⟩

/-- Witness for claim C6's theorem at concrete equal inputs. -/
theorem claim_C6_deterministic_witness :
    buildParams [("warranty").toList] 10 ("recent-2years").toList 1000 =
        buildParams [("warranty").toList] 10 ("recent-2years").toList 1000
      ∧ search_cases_by_problem (KwInput.list [PyElem.str ("warranty").toList]) 10 0 [emptyItem] =
        search_cases_by_problem (KwInput.list [PyElem.str ("warranty").toList]) 10 0 [emptyItem] :=
  claim_C6_deterministic _ _ _ _ _ _ _ _ _ _ _ _ _ _ rfl rfl rfl rfl rfl rfl rfl

/-- The source's keyword filter agrees pointwise with the claim's
criterion and stripping. -/
theorem keepKeyword_eq (e : PyElem) :
    keepKeyword e = if goodKeywordB e then some (strippedOf e) else none := by
  cases e with
  | nonStr => rfl
  | str s =>
    by_cases h1 : pyStrip s = [] <;> by_cases h2 : s.length ≤ 100 <;>
      simp [keepKeyword, goodKeywordB, strippedOf, h1, h2, List.isEmpty_iff]

/-- The kept keywords are the stripped values of the surviving elements,
in order. -/
theorem filterMap_keep_eq (elems : List PyElem) :
    elems.filterMap keepKeyword = (elems.filter goodKeywordB).map strippedOf := by
  induction elems with
  | nil => rfl
  | cons a t ih =>
    rw [List.filterMap_cons, List.filter_cons, keepKeyword_eq]
    by_cases h : goodKeywordB a = true
    · simp [h, ih]
    · simp [h, ih]

/-- No keyword survives the filter exactly when no element meets the
claim's criterion. -/
theorem keep_none_iff (elems : List PyElem) :
    elems.filterMap keepKeyword = [] ↔ ¬ ∃ x ∈ elems, goodKeywordB x = true := by
  rw [filterMap_keep_eq, List.map_eq_nil_iff, List.filter_eq_nil_iff]
  simp

/-- Validation succeeds exactly on a non-empty list of at most ten
elements containing at least one usable keyword. -/
theorem validate_isOk_iff (elems : List PyElem) :
    isOkE (validate_search_keywords (KwInput.list elems)) = true ↔
      elems ≠ [] ∧ elems.length ≤ 10 ∧ ∃ x ∈ elems, goodKeywordB x = true := by
  by_cases h0 : elems.length = 0
  · have he : elems = [] := List.length_eq_zero.mp h0
    simp [validate_search_keywords, h0, isOkE, he]
  · by_cases h1 : elems.length > 10
    · simp only [validate_search_keywords, h0, h1, if_neg, if_pos, if_true, if_false]
      simp [isOkE]
      omega
    · by_cases h2 : elems.filterMap keepKeyword = []
      · simp [validate_search_keywords, h0, h1, h2, isOkE, (keep_none_iff elems).mp h2]
      · simp [validate_search_keywords, h0, h1, h2, isOkE]
        refine ⟨fun h => h0 (by simp [h]), by omega, ?_⟩
        by_contra hc
        exact h2 ((keep_none_iff elems).mpr hc)

/-- Claim C9: `validate_search_keywords` raises `ValueError` exactly when
the input is not a list, is empty, has more than 10 elements, or contains
no element that is a string non-empty after stripping with unstripped
length at most 100; otherwise it returns the stripped surviving keywords
in their original order. -/
theorem claim_C9_validate_keywords (inp : KwInput) :
    (isOkE (validate_search_keywords inp) = true ↔
        ∃ elems, inp = KwInput.list elems ∧ elems ≠ [] ∧ elems.length ≤ 10
          ∧ ∃ x ∈ elems, goodKeywordB x = true)
      ∧ (∀ elems, inp = KwInput.list elems → isOkE (validate_search_keywords inp) = true →
          validate_search_keywords inp =
            Except.ok ((elems.filter goodKeywordB).map strippedOf)) := by
  constructor
  · constructor
    · intro hOk
      cases inp with
      | notList => simp [validate_search_keywords, isOkE] at hOk
      | list elems =>
        obtain ⟨h1, h2, h3⟩ := (validate_isOk_iff elems).mp hOk
        exact ⟨elems, rfl, h1, h2, h3⟩
    · rintro ⟨elems, rfl, h1, h2, h3⟩
      exact (validate_isOk_iff elems).mpr ⟨h1, h2, h3⟩
  · rintro elems rfl hOk
    obtain ⟨h1, h2, h3⟩ := (validate_isOk_iff elems).mp hOk
    have h0 : ¬ elems.length = 0 := fun h => h1 (List.length_eq_zero.mp h)
    have h10 : ¬ elems.length > 10 := by omega
    have hne : elems.filterMap keepKeyword ≠ [] :=
      fun heq => (keep_none_iff elems).mp heq h3
    simp [validate_search_keywords, h0, h10, hne, filterMap_keep_eq]
    exact h3

/-- Witness for claim C9's theorem: a single padded keyword is accepted
and returned stripped. -/
theorem claim_C9_validate_keywords_witness :
    validate_search_keywords (KwInput.list [PyElem.str (" breach ").toList]) =
      Except.ok [("breach").toList] := by
  have h := (claim_C9_validate_keywords (KwInput.list [PyElem.str (" breach ").toList])).2
    [PyElem.str (" breach ").toList] rfl (by decide)
  rw [h]
  rfl

end CourtListenerMCP

namespace Backend

/-- Claim C8: each chat route either returns its response or turns the
exception raised while processing into an `HTTPException` with status
code 500; no other error status is produced by the handler itself. -/
theorem claim_C8_chat_error_status (req : ChatRequest) (env : SendMessageEnv)
    (historyOutcome : Except Str (List ChatMessage)) :
    ((∃ r, send_message req env = Except.ok r)
        ∨ (∃ exc, send_message req env = Except.error exc ∧ exc.status_code = 500))
      ∧ ((∃ hs, get_chat_history historyOutcome = Except.ok hs)
        ∨ (∃ exc, get_chat_history historyOutcome = Except.error exc ∧ exc.status_code = 500)) := by
  constructor
  · cases hb : send_message_body req env with
    | ok r => exact Or.inl ⟨r, by simp [send_message, hb]⟩
    | error e =>
      refine Or.inr
        ⟨{ status_code := 500, detail := ("Error processing message: ").toList ++ e }, ?_, rfl⟩
      simp [send_message, hb]
  · cases historyOutcome with
    | ok hs => exact Or.inl ⟨hs, rfl⟩
    | error e =>
      exact Or.inr ⟨{ status_code := 500, detail := ("Error fetching history: ").toList ++ e }, rfl, rfl⟩

end Backend

namespace MCPServerBackend

/-- Counterexample to claim C10 as stated: for a request dict whose
`"tool"` value is unhashable (for example a list), the membership test
`tool_name not in self.tools` at line 75 raises `TypeError` outside the
`try` block, so `handle_request` propagates an exception instead of
returning a result dict. -/
theorem claim_C10_counterexample :
    handle_request ToolName.unhashable (Except.ok { success := true, error := none })
      = Except.error ("TypeError: unhashable type").toList := by
  rfl

/-- Claim C10, amended by the counterexample: for every request dict whose
`"tool"` value is hashable, `MCPServer.handle_request` propagates no
exception and returns a result dict carrying a `success` key, with
`success` false and an error message whenever the named tool is not one of
the three registered tools (including a missing or non-string tool value)
or the tool invocation itself raises. -/
theorem claim_C10_handle_request (toolName : ToolName) (invoke : Except Str MCPResult) :
    (toolName ≠ ToolName.unhashable → ∃ r, handle_request toolName invoke = Except.ok r)
      ∧ (∀ t, toolName = ToolName.str t → t ∉ registered_tool_names →
          ∃ r, handle_request toolName invoke = Except.ok r
            ∧ r.success = false ∧ ∃ m, r.error = some m)
      ∧ (toolName = ToolName.noneVal →
          ∃ r, handle_request toolName invoke = Except.ok r
            ∧ r.success = false ∧ ∃ m, r.error = some m)
      ∧ (∀ rd, toolName = ToolName.otherHashable rd →
          ∃ r, handle_request toolName invoke = Except.ok r
            ∧ r.success = false ∧ ∃ m, r.error = some m)
      ∧ (∀ t e, toolName = ToolName.str t → t ∈ registered_tool_names →
          invoke = Except.error e →
          handle_request toolName invoke = Except.ok { success := false, error := some e }) := by
  refine ⟨?_, ?_, ?_, ?_, ?_⟩
  · intro hn
    cases toolName with
    | unhashable => exact absurd rfl hn
    | str t =>
      by_cases hm : t ∈ registered_tool_names
      · cases invoke with
        | ok r => exact ⟨r, by simp [handle_request, hm]⟩
        | error e =>
          exact ⟨{ success := false, error := some e }, by simp [handle_request, hm]⟩
      · exact ⟨{ success := false, error := some (("Unknown tool: ").toList ++ t) },
          by simp [handle_request, hm]⟩
    | noneVal => exact ⟨{ success := false, error := some ("Unknown tool: None").toList }, rfl⟩
    | otherHashable rd =>
      exact ⟨{ success := false, error := some (("Unknown tool: ").toList ++ rd) }, rfl⟩
  · rintro t rfl hn
    exact ⟨{ success := false, error := some (("Unknown tool: ").toList ++ t) },
      by simp [handle_request, hn], rfl, ("Unknown tool: ").toList ++ t, rfl⟩
  · rintro rfl
    exact ⟨{ success := false, error := some ("Unknown tool: None").toList },
      rfl, rfl, ("Unknown tool: None").toList, rfl⟩
  · rintro rd rfl
    exact ⟨{ success := false, error := some (("Unknown tool: ").toList ++ rd) },
      rfl, rfl, ("Unknown tool: ").toList ++ rd, rfl⟩
  · rintro t e rfl hm rfl
    simp [handle_request, hm]

/-- Witness for claim C10's amended theorem on an unregistered string
tool name. -/
theorem claim_C10_handle_request_witness :
    ∃ r, handle_request (ToolName.str ("nope").toList)
        (Except.ok { success := true, error := none }) = Except.ok r
      ∧ r.success = false ∧ ∃ m, r.error = some m :=
  (claim_C10_handle_request (ToolName.str ("nope").toList)
    (Except.ok { success := true, error := none })).2.1 ("nope").toList rfl (by decide)

end MCPServerBackend

end LawyeredAI
